import Mathlib

/-!
Shallow embedding of the rust-plugin-example repository: a host process that
loads plugin modules dynamically, lets each module's entry function register
capability objects with a registrar, and then invokes every registered object.

Embedded sources:
* core/src/lib.rs     : the contract traits Plugin and PluginRegistrar
* plugin_a/src/lib.rs : PluginA and its plugin_entry
* plugin_b/src/lib.rs : PluginB and its plugin_entry
* src/main.rs         : the Registrar and the main load/invoke loops
-/

/-! ## Signature-level model of the contract boundary -/

/-- Rust surface types occurring in the contract and in the entry symbol. -/
inductive RustType
  | unit
  | i32
  | boxDynPlugin
  | refMutDynPluginRegistrar
  deriving DecidableEq

/-- Method receiver kind. -/
inductive Receiver
  | ref
  | refMut
  deriving DecidableEq

/-- Signature of one trait method: name, receiver, ordered value parameters,
return type. -/
structure MethodSig where
  name : String
  receiver : Receiver
  params : List RustType
  ret : RustType
  deriving DecidableEq

/-- Calling convention of a free function. -/
inductive Abi
  | rust
  | c
  deriving DecidableEq

/-- Signature of an exported/resolved free function. -/
structure FnSig where
  name : String
  abi : Abi
  params : List RustType
  ret : RustType
  deriving DecidableEq

/-- The Plugin trait as declared in core/src/lib.rs:
fn callback1(&self); fn callback2(&self); -/
def Plugin_contract : List MethodSig :=
  [⟨"callback1", Receiver.ref, [], RustType.unit⟩,
   ⟨"callback2", Receiver.ref, [], RustType.unit⟩]

/-- The PluginRegistrar trait as declared in core/src/lib.rs:
fn register_plugin(&mut self, plugin: Box<dyn Plugin>); -/
def PluginRegistrar_contract : List MethodSig :=
  [⟨"register_plugin", Receiver.refMut, [RustType.boxDynPlugin], RustType.unit⟩]

/-- The Plugin methods as implemented by PluginA in plugin_a/src/lib.rs:
fn callback1(&self); fn callback2(&self, i: i32) -> i32. -/
def PluginA_impl : List MethodSig :=
  [⟨"callback1", Receiver.ref, [], RustType.unit⟩,
   ⟨"callback2", Receiver.ref, [RustType.i32], RustType.i32⟩]

/-- The Plugin methods as implemented by PluginB in plugin_b/src/lib.rs. -/
def PluginB_impl : List MethodSig :=
  [⟨"callback1", Receiver.ref, [], RustType.unit⟩,
   ⟨"callback2", Receiver.ref, [RustType.i32], RustType.i32⟩]

/-- The Plugin method signatures the host actually uses in src/main.rs:
plugin.callback1() and plugin.callback2(7) whose i32 result is printed. -/
def host_Plugin_use : List MethodSig :=
  [⟨"callback1", Receiver.ref, [], RustType.unit⟩,
   ⟨"callback2", Receiver.ref, [RustType.i32], RustType.i32⟩]

/-- plugin_a declares: no_mangle pub fn plugin_entry(registrar: &mut dyn
core::PluginRegistrar) — default Rust ABI, no extern C qualifier. -/
def pluginA_entry_decl : FnSig :=
  ⟨"plugin_entry", Abi.rust, [RustType.refMutDynPluginRegistrar], RustType.unit⟩

/-- plugin_b declares the identical entry function. -/
def pluginB_entry_decl : FnSig :=
  ⟨"plugin_entry", Abi.rust, [RustType.refMutDynPluginRegistrar], RustType.unit⟩

/-- The only no_mangle (externally resolvable) function plugin_a exports. -/
def pluginA_exports : List FnSig := [pluginA_entry_decl]

/-- The only no_mangle (externally resolvable) function plugin_b exports. -/
def pluginB_exports : List FnSig := [pluginB_entry_decl]

/-- The symbol type the host resolves in src/main.rs:
Symbol<unsafe extern "C" fn(&mut dyn PluginRegistrar) -> ()> under name
"plugin_entry". -/
def host_entry_type : FnSig :=
  ⟨"plugin_entry", Abi.c, [RustType.refMutDynPluginRegistrar], RustType.unit⟩

/-! ## Behavioural model -/

namespace Host

/-- Two's-complement wrap of a mathematical integer into the i32 range,
modelling Rust i32 arithmetic where it can overflow. -/
def wrap32 (x : Int) : Int := (x + 2147483648) % 4294967296 - 2147483648

/-- A capability object as the host sees it: an opaque value whose callback2
maps an i32 to an i32 (callback1 only prints, identified here by the name). -/
structure Capability where
  name : String
  callback2 : Int → Int

/-- PluginA from plugin_a/src/lib.rs: callback2 returns i + 1 (i32). -/
def pluginA : Capability := ⟨"PluginA", fun i => wrap32 (i + 1)⟩

/-- PluginB from plugin_b/src/lib.rs: callback2 returns i - 1 (i32). -/
def pluginB : Capability := ⟨"PluginB", fun i => wrap32 (i - 1)⟩

/-- The registrar state: the plugins vector of struct Registrar in main.rs. -/
abbrev Registrar := List Capability

/-- Registrar::register_plugin from src/main.rs: self.plugins.push(plugin). -/
def register_plugin (r : Registrar) (p : Capability) : Registrar := r ++ [p]

/-- The observable behaviour of a module's entry function: the ordered
sequence of register_plugin calls it makes on the registrar it is handed. -/
abbrev EntryCalls := List Capability

/-- Running an entry function against the registrar: each registration call
is one register_plugin invocation, in the order the entry function makes
them. -/
def runEntry (r : Registrar) (calls : EntryCalls) : Registrar :=
  calls.foldl register_plugin r

/-- plugin_a's entry function registers exactly Box::new(PluginA). -/
def pluginA_plugin_entry : EntryCalls := [pluginA]

/-- plugin_b's entry function registers exactly Box::new(PluginB). -/
def pluginB_plugin_entry : EntryCalls := [pluginB]

/-- What the environment provides for one module path handed to the host:
Library::new fails (invalid), the library opens but lacks the plugin_entry
symbol (noEntrySymbol), or the entry resolves and performs its
registration calls (valid). -/
inductive Module
  | invalid
  | noEntrySymbol
  | valid (entry : EntryCalls)

/-- Observable events of a run of main. closeLib is the library-release
operation, which the code never performs. -/
inductive Event
  | openLib
  | closeLib
  | getSymbol
  | entryCall
  | registerCall (c : Capability)
  | callback1 (c : Capability)
  | callback2 (c : Capability) (arg ret : Int)

/-- Is this event a library close/unload? -/
def Event.isClose : Event → Bool
  | .closeLib => true
  | _ => false

/-- Is this event an invocation of a capability method? -/
def Event.isInvoke : Event → Bool
  | .callback1 _ => true
  | .callback2 _ _ _ => true
  | _ => false

/-- A callback2 event is consistent when its recorded result is what the
capability's own definition returns for the recorded argument. -/
def Event.consistent : Event → Bool
  | .callback2 c a r => decide (r = c.callback2 a)
  | _ => true

/-- The argument of a callback2 event, if any. -/
def Event.call2Arg : Event → Option Int
  | .callback2 _ a _ => some a
  | _ => none

/-- The load loop of main in src/main.rs: for each path, open the library
(unwrap), resolve plugin_entry (unwrap), call the entry with the registrar.
A failed unwrap panics: the run aborts, returning none. -/
def loadLoop : List Module → Registrar → List Event × Option Registrar
  | [], r => ([], some r)
  | Module.invalid :: _, _ => ([], none)
  | Module.noEntrySymbol :: _, _ => ([Event.openLib], none)
  | Module.valid calls :: rest, r =>
      let out := loadLoop rest (runEntry r calls)
      (Event.openLib :: Event.getSymbol :: Event.entryCall ::
        (calls.map Event.registerCall ++ out.1), out.2)

/-- The invocation loop of main: for each registered plugin in order,
plugin.callback1() then dbg of plugin.callback2(7). -/
def invokeLoop : List Capability → List Event
  | [] => []
  | c :: rest =>
      Event.callback1 c :: Event.callback2 c 7 (c.callback2 7) :: invokeLoop rest

/-- fn main: run the load loop over the argument modules starting from an
empty registrar; if it completes, run the invocation loop over the collected
plugins. The trace of events and the final registrar (none on abort). -/
def main (mods : List Module) : List Event × Option Registrar :=
  match loadLoop mods [] with
  | (tr, none) => (tr, none)
  | (tr, some r) => (tr ++ invokeLoop r, some r)

/-! ## Helper lemmas about the host loops -/

theorem runEntry_eq_append (r : Registrar) (calls : EntryCalls) :
    runEntry r calls = r ++ calls := by
  induction calls generalizing r with
  | nil => simp [runEntry]
  | cons c cs ih =>
      show runEntry (register_plugin r c) cs = r ++ c :: cs
      rw [ih, register_plugin]
      simp

theorem loadLoop_valid_snd (entries : List EntryCalls) (r : Registrar) :
    (loadLoop (entries.map Module.valid) r).2 = some (r ++ entries.flatten) := by
  induction entries generalizing r with
  | nil => simp [loadLoop]
  | cons e es ih => simp [loadLoop, runEntry_eq_append, ih]

theorem main_snd (mods : List Module) :
    (main mods).2 = (loadLoop mods []).2 := by
  unfold main
  rcases hl : loadLoop mods [] with ⟨tr, o⟩
  cases o <;> rfl

theorem main_fst_of_abort (mods : List Module) (h : (loadLoop mods []).2 = none) :
    (main mods).1 = (loadLoop mods []).1 := by
  unfold main
  rcases hl : loadLoop mods [] with ⟨tr, o⟩
  cases o with
  | none => rfl
  | some r =>
      rw [hl] at h
      exact Option.noConfusion h

theorem loadLoop_no_invoke (mods : List Module) (r : Registrar) :
    ((loadLoop mods r).1.all fun e => !e.isInvoke) = true := by
  induction mods generalizing r with
  | nil => rfl
  | cons m rest ih =>
      cases m with
      | invalid => rfl
      | noEntrySymbol => rfl
      | valid calls =>
          simp only [loadLoop, List.all_cons, List.all_append, Bool.and_eq_true]
          refine ⟨rfl, rfl, rfl, ?_, ih (runEntry r calls)⟩
          simp [List.all_map, Function.comp, Event.isInvoke]

theorem loadLoop_no_close (mods : List Module) (r : Registrar) :
    ((loadLoop mods r).1.all fun e => !e.isClose) = true := by
  induction mods generalizing r with
  | nil => rfl
  | cons m rest ih =>
      cases m with
      | invalid => rfl
      | noEntrySymbol => rfl
      | valid calls =>
          simp only [loadLoop, List.all_cons, List.all_append, Bool.and_eq_true]
          refine ⟨rfl, rfl, rfl, ?_, ih (runEntry r calls)⟩
          simp [List.all_map, Function.comp, Event.isClose]

theorem loadLoop_abort_snd (good : List EntryCalls) (bad : Module)
    (rest : List Module) (r : Registrar)
    (h : bad = Module.invalid ∨ bad = Module.noEntrySymbol) :
    (loadLoop (good.map Module.valid ++ bad :: rest) r).2 = none := by
  induction good generalizing r with
  | nil => rcases h with h | h <;> subst h <;> rfl
  | cons e es ih => exact ih (runEntry r e)

theorem loadLoop_skip_empty (mods1 mods2 : List Module) (r : Registrar) :
    (loadLoop (mods1 ++ Module.valid [] :: mods2) r).2 =
      (loadLoop (mods1 ++ mods2) r).2 := by
  induction mods1 generalizing r with
  | nil => rfl
  | cons m rest ih =>
      cases m with
      | invalid => rfl
      | noEntrySymbol => rfl
      | valid calls => exact ih (runEntry r calls)

theorem invokeLoop_eq_bind (ps : List Capability) :
    invokeLoop ps =
      ps.flatMap fun c => [Event.callback1 c, Event.callback2 c 7 (c.callback2 7)] := by
  induction ps with
  | nil => rfl
  | cons c cs ih => simp [invokeLoop, ih]

theorem invokeLoop_no_close (ps : List Capability) :
    ((invokeLoop ps).all fun e => !e.isClose) = true := by
  induction ps with
  | nil => rfl
  | cons c cs ih =>
      simp only [invokeLoop, List.all_cons, Bool.and_eq_true]
      exact ⟨rfl, rfl, ih⟩

theorem invokeLoop_consistent (ps : List Capability) :
    ((invokeLoop ps).all Event.consistent) = true := by
  induction ps with
  | nil => rfl
  | cons c cs ih =>
      simp only [invokeLoop, List.all_cons, Bool.and_eq_true]
      refine ⟨rfl, ?_, ih⟩
      simp [Event.consistent]

theorem invokeLoop_call2Args (ps : List Capability) :
    (invokeLoop ps).filterMap Event.call2Arg = ps.map fun _ => (7 : Int) := by
  induction ps with
  | nil => rfl
  | cons c cs ih => simp [invokeLoop, Event.call2Arg, ih]

theorem main_no_close (mods : List Module) :
    ((main mods).1.all fun e => !e.isClose) = true := by
  unfold main
  rcases hl : loadLoop mods [] with ⟨tr, o⟩
  have htr : (tr.all fun e => !e.isClose) = true := by
    have h := loadLoop_no_close mods ([] : Registrar)
    rw [hl] at h
    exact h
  cases o with
  | none => exact htr
  | some r => simp [List.all_append, htr, invokeLoop_no_close]

end Host

/-! ## Claim theorems -/

open Host

/-- Claim C1 (code bug in the source): the capability interface as declared by
the contract module is NOT identical to the interface implemented by the
plugins: core declares callback2 with no value parameter and unit return,
while both plugins implement callback2 taking an i32 and returning an i32 —
which is also exactly the signature the host itself uses when it calls
plugin.callback2(7). The contract module's declaration is the slip. -/
theorem contract_plugin_signature_mismatch :
    Plugin_contract ≠ PluginA_impl ∧
    Plugin_contract ≠ PluginB_impl ∧
    PluginA_impl = host_Plugin_use ∧
    PluginB_impl = host_Plugin_use ∧
    Plugin_contract.map MethodSig.name = PluginA_impl.map MethodSig.name := by
  decide

/-- Claim C2, counterexample: the plugin-side declaration of plugin_entry is
not identical to the host-side resolved symbol type — the plugins declare it
with the default Rust ABI, the host resolves an extern C type. -/
theorem plugin_entry_abi_counterexample :
    pluginA_entry_decl ≠ host_entry_type ∧ pluginB_entry_decl ≠ host_entry_type := by
  decide

/-- Claim C2 (amended): every plugin module exposes exactly one externally
resolved entry function whose name, parameter list and return type equal the
host-resolved symbol type, but whose declared calling convention is the
default Rust ABI whereas the host resolves it as extern C. -/
theorem plugin_entry_signature_amended :
    pluginA_exports = [pluginA_entry_decl] ∧
    pluginB_exports = [pluginB_entry_decl] ∧
    pluginA_entry_decl.name = host_entry_type.name ∧
    pluginA_entry_decl.params = host_entry_type.params ∧
    pluginA_entry_decl.ret = host_entry_type.ret ∧
    pluginB_entry_decl.name = host_entry_type.name ∧
    pluginB_entry_decl.params = host_entry_type.params ∧
    pluginB_entry_decl.ret = host_entry_type.ret ∧
    pluginA_entry_decl.abi ≠ host_entry_type.abi ∧
    pluginB_entry_decl.abi ≠ host_entry_type.abi := by
  decide

/-- Claim C3: for every sequence of valid modules, the final registrar holds
exactly the concatenation of the registration sequences, in module order and,
within a module, in registration-call order; and each register_plugin call
appends exactly one object. -/
theorem registrar_collects_in_order (entries : List EntryCalls) :
    (Host.main (entries.map Module.valid)).2 = some entries.flatten ∧
    ∀ (r : Registrar) (c : Capability),
      register_plugin r c = r ++ [c] ∧
      (register_plugin r c).length = r.length + 1 := by
  refine ⟨?_, fun r c => ⟨rfl, by simp [register_plugin]⟩⟩
  rw [main_snd]
  simpa using loadLoop_valid_snd entries []

/-- Claim C4: with two modules [A, B] each registering one object, the run
trace invokes A's object (callback1 then callback2) before B's object; and in
general the invocation loop calls callback1 then callback2 on every
registered object in registration order, with no filtering. -/
theorem invocation_order_fixed (a b : Capability) :
    Host.main [Module.valid [a], Module.valid [b]] =
      ([Event.openLib, Event.getSymbol, Event.entryCall, Event.registerCall a,
        Event.openLib, Event.getSymbol, Event.entryCall, Event.registerCall b,
        Event.callback1 a, Event.callback2 a 7 (a.callback2 7),
        Event.callback1 b, Event.callback2 b 7 (b.callback2 7)],
       some [a, b]) ∧
    ∀ ps : List Capability,
      invokeLoop ps =
        ps.flatMap fun c => [Event.callback1 c, Event.callback2 c 7 (c.callback2 7)] :=
  ⟨rfl, invokeLoop_eq_bind⟩

/-- Claim C5: a load failure or a symbol-resolution failure aborts the whole
run — the registrar result is none (no partial set retained) and the trace
contains no capability-method invocation; both failure kinds have the same
effect. -/
theorem load_failure_aborts (good : List EntryCalls) (bad : Module)
    (rest : List Module)
    (h : bad = Module.invalid ∨ bad = Module.noEntrySymbol) :
    (Host.main (good.map Module.valid ++ bad :: rest)).2 = none ∧
    ((Host.main (good.map Module.valid ++ bad :: rest)).1.all
      fun e => !e.isInvoke) = true := by
  have hs := loadLoop_abort_snd good bad rest [] h
  constructor
  · rw [main_snd]
    exact hs
  · rw [main_fst_of_abort _ hs]
    exact loadLoop_no_invoke _ _

/-- Claim C5, witness at a concrete failing run. -/
theorem load_failure_aborts_witness :
    (Host.main [Module.invalid]).2 = none ∧
    ((Host.main [Module.invalid]).1.all fun e => !e.isInvoke) = true :=
  load_failure_aborts [] Module.invalid [] (Or.inl rfl)

/-- Claim C6, counterexample: at i32::MAX the i32 addition in
PluginA::callback2 wraps, so the result is not i + 1. -/
theorem pluginA_callback2_overflow_counterexample :
    Host.pluginA.callback2 2147483647 ≠ 2147483647 + 1 := by
  decide

/-- Claim C6 (amended): for every i32 input except i32::MAX (where the i32
addition wraps), PluginA::callback2 returns i + 1. -/
theorem pluginA_callback2_add_one (i : Int)
    (hlo : -2147483648 ≤ i) (hhi : i < 2147483647) :
    Host.pluginA.callback2 i = i + 1 := by
  show wrap32 (i + 1) = i + 1
  unfold wrap32
  omega

/-- Claim C6, witness. -/
theorem pluginA_callback2_add_one_witness :
    Host.pluginA.callback2 41 = 41 + 1 :=
  pluginA_callback2_add_one 41 (by decide) (by decide)

/-- Claim C7: a module whose entry function registers nothing is not an
error: it leaves the registrar result unchanged, and a run of just such a
module completes with an empty registrar. -/
theorem empty_registration_not_error (mods1 mods2 : List Module) :
    (Host.main (mods1 ++ Module.valid [] :: mods2)).2 =
      (Host.main (mods1 ++ mods2)).2 ∧
    (Host.main [Module.valid []]).2 = some [] := by
  refine ⟨?_, rfl⟩
  rw [main_snd, main_snd]
  exact loadLoop_skip_empty mods1 mods2 []

/-- Claim C8: no step of any run ever performs a library close/unload, and
invoking the registered objects' methods twice yields, both times, results
consistent with each object's own definition. -/
theorem library_never_closed (mods : List Module) :
    ((Host.main mods).1.all fun e => !e.isClose) = true ∧
    ∀ ps : List Capability,
      ((invokeLoop ps ++ invokeLoop ps).all Event.consistent) = true := by
  refine ⟨main_no_close mods, fun ps => ?_⟩
  simp [List.all_append, invokeLoop_consistent]

/-- Claim C9: during the invocation phase the host makes exactly one
callback2 call per registered object, always with the fixed argument 7. -/
theorem callback2_arg_always_seven (ps : List Capability) :
    (invokeLoop ps).filterMap Event.call2Arg = ps.map fun _ => (7 : Int) :=
  invokeLoop_call2Args ps

/-- Claim C10, counterexample: at i32::MIN the i32 subtraction in
PluginB::callback2 wraps, so the result is not i - 1. -/
theorem pluginB_callback2_overflow_counterexample :
    Host.pluginB.callback2 (-2147483648) ≠ -2147483648 - 1 := by
  decide

/-- Claim C10 (amended): for every i32 input except i32::MIN (where the i32
subtraction wraps), PluginB::callback2 returns i - 1; and PluginB's entry
function registers exactly one capability object, PluginB itself. -/
theorem pluginB_callback2_sub_one (i : Int) (r : Registrar)
    (hlo : -2147483648 < i) (hhi : i ≤ 2147483647) :
    Host.pluginB.callback2 i = i - 1 ∧
    runEntry r pluginB_plugin_entry = r ++ [Host.pluginB] := by
  refine ⟨?_, rfl⟩
  show wrap32 (i - 1) = i - 1
  unfold wrap32
  omega

/-- Claim C10, witness. -/
theorem pluginB_callback2_sub_one_witness :
    Host.pluginB.callback2 41 = 41 - 1 ∧
    runEntry [] pluginB_plugin_entry = [] ++ [Host.pluginB] :=
  pluginB_callback2_sub_one 41 [] (by decide) (by decide)
